import Mathlib

/-!
Shallow embedding of `webhook_server.py` (Railway auto-fix webhook server):
the Flask request handlers `railway_webhook` (`POST /webhook`), `manual_fix`
(`POST /manual-fix`), `health` (`GET /health`), and the background remediation
task `start_cursor_fix`.

Modelling conventions:
* A parsed request body (`request.json`) is an `Option Json`: `none` means the
  body did not parse as JSON; `some j` is the parsed document.
* Python truthiness is modelled explicitly (`Json.truthy`, `pyTruthy`,
  `pyTruthyStr`), since the handlers branch on `if not x:` throughout.
* The four external collaborators imported from `cursor_bridge_enhanced`
  (log fetch, error extraction, prompt creation, Cursor launch) are opaque
  parameters collected in a `FixWorld`; each may raise, modelled by
  `Except String`.
* `threading.Thread(target=start_cursor_fix, args=(a, b)).start()` is a
  fire-and-forget dispatch: the handler records the argument pair and returns
  without running the task.  The `threads` field of a `HandlerResult` is the
  list of dispatched argument pairs, in dispatch order.
* The source file maintains no notification store of any kind; the
  specification's Notification Store (bound 50, FIFO eviction) belongs to a
  repository variant that is not part of the source here, and is modelled
  separately from the spec below (`store_append`).
-/

/-- A JSON value, as produced by Flask's request-body parsing.  Numbers are
modelled as integers (no handler inspects a numeric value other than for
truthiness). -/
inductive Json where
  | null : Json
  | bool : Bool → Json
  | num : Int → Json
  | str : String → Json
  | arr : List Json → Json
  | obj : List (String × Json) → Json

/-- Python truthiness of a JSON value: `None`, `False`, `0`, `""`, `[]` and
an empty dict are falsy; everything else is truthy. -/
def Json.truthy : Json → Bool
  | Json.null => false
  | Json.bool b => b
  | Json.num n => n != 0
  | Json.str s => !s.isEmpty
  | Json.arr xs => !xs.isEmpty
  | Json.obj kvs => !kvs.isEmpty

/-- Python truthiness of an optional JSON value (`None` is falsy). -/
def pyTruthy : Option Json → Bool
  | none => false
  | some j => j.truthy

/-- Python truthiness of an optional string (`None` and `""` are falsy). -/
def pyTruthyStr : Option String → Bool
  | none => false
  | some s => !s.isEmpty

mutual
/-- Python `repr` of a JSON value (up to string-escaping corner cases, which
no handler output depends on). -/
def Json.pyRepr : Json → String
  | Json.null => "None"
  | Json.bool true => "True"
  | Json.bool false => "False"
  | Json.num n => toString n
  | Json.str s => "\x27" ++ s ++ "\x27"
  | Json.arr xs => "[" ++ Json.pyReprArr xs ++ "]"
  | Json.obj kvs => "\x7b" ++ Json.pyReprObj kvs ++ "\x7d"

/-- Comma-separated `repr` of the elements of a JSON array. -/
def Json.pyReprArr : List Json → String
  | [] => ""
  | [x] => Json.pyRepr x
  | x :: xs => Json.pyRepr x ++ ", " ++ Json.pyReprArr xs

/-- Comma-separated `repr` of the entries of a JSON object. -/
def Json.pyReprObj : List (String × Json) → String
  | [] => ""
  | [(k, v)] => "\x27" ++ k ++ "\x27: " ++ Json.pyRepr v
  | (k, v) :: kvs => "\x27" ++ k ++ "\x27: " ++ Json.pyRepr v ++ ", " ++ Json.pyReprObj kvs
end

/-- Python `str` of a JSON value (`str` of a string is the string itself;
for the other JSON types `str` agrees with `repr`). -/
def Json.pyStr : Json → String
  | Json.str s => s
  | j => j.pyRepr

/-- Python `str` of an optional JSON value, as interpolated by an f-string:
a missing value (`None`) prints as `"None"`. -/
def pyStrOpt : Option Json → String
  | none => "None"
  | some j => j.pyStr

/-- Python `data.get(k)`: a dictionary lookup when `data` is a dict, and an
`AttributeError` otherwise (the handlers call `.get` on untyped parsed
JSON). -/
def Json.pyGet : Json → String → Except String (Option Json)
  | Json.obj kvs, k => Except.ok (List.lookup k kvs)
  | _, _ => Except.error "AttributeError: object has no attribute get"

/-- The auth guard shared by `/webhook` (lines 151-155) and `/manual-fix`
(lines 213-216): when `AUTH_TOKEN` is truthy (configured and non-empty), the
request is authorized exactly when the `Authorization` header is truthy and
equals the string `"Bearer " + AUTH_TOKEN`; with no configured token every
request is authorized (open mode). -/
def authorized (auth_token auth_header : Option String) : Bool :=
  if pyTruthyStr auth_token then
    match auth_header with
    | none => false
    | some h => !h.isEmpty && (h == "Bearer " ++ auth_token.getD "")
  else true

/-- An HTTP response: status code plus the JSON object body produced by
`jsonify` (field list in construction order). -/
structure HttpResponse where
  status : Nat
  body : List (String × Json)

/-- The observable outcome of one request to a POST handler: the HTTP
response, and the list of `start_cursor_fix` argument pairs
`(deployment_id, deployment_logs)` handed to daemon threads, in dispatch
order.  The threads are dispatched fire-and-forget: the handler returns its
response without waiting for (or running) any of them. -/
structure HandlerResult where
  response : HttpResponse
  threads : List (Option Json × Option Json)

/-- The comparison `event_type == 'deployment.failed'` from line 169; Python
equality of a non-string JSON value with a string literal is `False`. -/
def eventIsFailed : Option Json → Bool
  | some (Json.str s) => s == "deployment.failed"
  | _ => false

/-- `POST /webhook` (`railway_webhook`, lines 132-195): auth guard, body
truthiness check, then a `try` block that classifies the event and, for
`deployment.failed`, extracts `deployment.id` and `service.name` (missing
keys yield `None`) and dispatches `start_cursor_fix(deployment_id, None)` on
a daemon thread before answering 200 `processing`; any other event answers
200 `ignored`.  An exception inside the `try` block becomes a 500 response
carrying the exception message. -/
def railway_webhook (auth_token auth_header : Option String) (body : Option Json) :
    HandlerResult :=
  if !authorized auth_token auth_header then
    ⟨⟨401, [("error", Json.str "Unauthorized")]⟩, []⟩
  else if !pyTruthy body then
    ⟨⟨400, [("error", Json.str "Invalid JSON payload")]⟩, []⟩
  else
    match (body.getD Json.null).pyGet "event" with
    | Except.error e => ⟨⟨500, [("error", Json.str e)]⟩, []⟩
    | Except.ok event_type =>
      if eventIsFailed event_type then
        match (body.getD Json.null).pyGet "deployment" with
        | Except.error e => ⟨⟨500, [("error", Json.str e)]⟩, []⟩
        | Except.ok dep =>
          match (dep.getD (Json.obj [])).pyGet "id" with
          | Except.error e => ⟨⟨500, [("error", Json.str e)]⟩, []⟩
          | Except.ok deployment_id =>
            match (body.getD Json.null).pyGet "service" with
            | Except.error e => ⟨⟨500, [("error", Json.str e)]⟩, []⟩
            | Except.ok svc =>
              match (svc.getD (Json.obj [])).pyGet "name" with
              | Except.error e => ⟨⟨500, [("error", Json.str e)]⟩, []⟩
              | Except.ok _service_name =>
                ⟨⟨200, [("status", Json.str "processing"),
                    ("message", Json.str ("Cursor auto-fix started for deployment "
                      ++ pyStrOpt deployment_id))]⟩,
                 [(deployment_id, none)]⟩
      else
        ⟨⟨200, [("status", Json.str "ignored"),
            ("message", Json.str "Event is not a deployment failure")]⟩, []⟩

/-- `POST /manual-fix` (`manual_fix`, lines 197-238): auth guard, body
truthiness check, then at least one of `deployment_id` / `logs` must be
truthy (400 otherwise); the handler dispatches
`start_cursor_fix(deployment_id, logs)` on a daemon thread and answers 200
`processing`.  This handler has no `try` block, so an exception (a `.get`
on a non-dict body, or concatenating a non-string `deployment_id` in the
response f-string) falls through to the framework's plain 500; the f-string
is evaluated after the thread has already been dispatched. -/
def manual_fix (auth_token auth_header : Option String) (body : Option Json) :
    HandlerResult :=
  if !authorized auth_token auth_header then
    ⟨⟨401, [("error", Json.str "Unauthorized")]⟩, []⟩
  else if !pyTruthy body then
    ⟨⟨400, [("error", Json.str "Invalid JSON payload")]⟩, []⟩
  else
    match (body.getD Json.null).pyGet "deployment_id" with
    | Except.error _ => ⟨⟨500, []⟩, []⟩
    | Except.ok deployment_id =>
      match (body.getD Json.null).pyGet "logs" with
      | Except.error _ => ⟨⟨500, []⟩, []⟩
      | Except.ok logs =>
        if !pyTruthy deployment_id && !pyTruthy logs then
          ⟨⟨400, [("error", Json.str "Either deployment_id or logs must be provided")]⟩, []⟩
        else
          match (if pyTruthy deployment_id then
                   match deployment_id with
                   | some (Json.str s) => Except.ok ("deployment " ++ s)
                   | _ => (Except.error "TypeError" : Except String String)
                 else Except.ok "provided logs") with
          | Except.error _ => ⟨⟨500, []⟩, [(deployment_id, logs)]⟩
          | Except.ok target =>
            ⟨⟨200, [("status", Json.str "processing"),
                ("message", Json.str ("Cursor auto-fix started for " ++ target))]⟩,
             [(deployment_id, logs)]⟩

/-- `GET /health` (`health`, lines 80-130).  `probe` is the outcome of the
`requests.post` reachability call against the Railway API: `Except.error e`
models a raised exception (caught by the handler's `except` clause),
`Except.ok code` the response's status code; it is examined only when
`RAILWAY_TOKEN` is truthy.  `now` is `datetime.now().isoformat()`.  Every
path answers 200 with `status: "healthy"`. -/
def health (railway_token : Option String) (probe : Except String Nat) (now : String) :
    HttpResponse :=
  if pyTruthyStr railway_token then
    match probe with
    | Except.error e =>
      ⟨200, [("status", Json.str "healthy"), ("timestamp", Json.str now),
        ("message", Json.str ("Webhook service is running with warning: " ++ e))]⟩
    | Except.ok code =>
      if code = 200 then
        ⟨200, [("status", Json.str "healthy"), ("timestamp", Json.str now),
          ("message", Json.str "Webhook service is running correctly and can connect to Railway API")]⟩
      else
        ⟨200, [("status", Json.str "healthy"), ("timestamp", Json.str now),
          ("message", Json.str "Webhook service is running")]⟩
  else
    ⟨200, [("status", Json.str "healthy"), ("timestamp", Json.str now),
      ("message", Json.str "Webhook service is running")]⟩

/-- The four external collaborators imported from `cursor_bridge_enhanced`
(line 21) plus the `LOCAL_REPO_PATH` environment read (line 69), treated as
opaque: each call either returns a value or raises (`Except.error`). -/
structure FixWorld where
  fetch_deployment_logs : Json → Except String (Option Json)
  extract_errors_from_logs : Json → Except String Json
  create_prompt_file : Option Json → Json → Json → Except String Json
  launch_cursor_with_prompt : Json → Option String → Except String Bool
  repo_path : Option String

/-- One collaborator call attempted by `start_cursor_fix`, with the
arguments it was given. -/
inductive FixStep where
  | fetch (deployment_id : Json)
  | extract (logs : Json)
  | createPrompt (deployment_id : Option Json) (logs : Json) (errors : Json)
  | launch (prompt_file : Json) (repo_path : Option String)

/-- Steps 2-4 of `start_cursor_fix` (lines 58-73), after the optional log
fetch: if the logs at hand are falsy, return `False` at once (line 60);
otherwise extract errors, build the prompt file and launch Cursor, returning
the launch result.  The second component accumulates the collaborator calls
attempted (`tr` is the trace so far); a raised exception is recorded as
`Except.error` together with the trace including the failing call. -/
def start_cursor_after_fetch (w : FixWorld) (deployment_id logs : Option Json)
    (tr : List FixStep) : Except String Bool × List FixStep :=
  if !pyTruthy logs then
    (Except.ok false, tr)
  else
    match w.extract_errors_from_logs (logs.getD Json.null) with
    | Except.error e => (Except.error e, tr ++ [FixStep.extract (logs.getD Json.null)])
    | Except.ok errors =>
      match w.create_prompt_file deployment_id (logs.getD Json.null) errors with
      | Except.error e =>
        (Except.error e, tr ++ [FixStep.extract (logs.getD Json.null),
          FixStep.createPrompt deployment_id (logs.getD Json.null) errors])
      | Except.ok prompt_file =>
        match w.launch_cursor_with_prompt prompt_file w.repo_path with
        | Except.error e =>
          (Except.error e, tr ++ [FixStep.extract (logs.getD Json.null),
            FixStep.createPrompt deployment_id (logs.getD Json.null) errors,
            FixStep.launch prompt_file w.repo_path])
        | Except.ok success =>
          (Except.ok success, tr ++ [FixStep.extract (logs.getD Json.null),
            FixStep.createPrompt deployment_id (logs.getD Json.null) errors,
            FixStep.launch prompt_file w.repo_path])

/-- The body of `start_cursor_fix` (lines 51-73) without the enclosing
`try`/`except`: fetch logs only when `deployment_logs` is falsy and
`deployment_id` is truthy (line 55), then proceed as in
`start_cursor_after_fetch`.  The first component is the value the `try`
block produces (or the exception it raises); the second is the trace of
collaborator calls attempted. -/
def start_cursor_fix_run (w : FixWorld) (deployment_id deployment_logs : Option Json) :
    Except String Bool × List FixStep :=
  if !pyTruthy deployment_logs && pyTruthy deployment_id then
    match w.fetch_deployment_logs (deployment_id.getD Json.null) with
    | Except.error e => (Except.error e, [FixStep.fetch (deployment_id.getD Json.null)])
    | Except.ok fetched =>
      start_cursor_after_fetch w deployment_id fetched
        [FixStep.fetch (deployment_id.getD Json.null)]
  else
    start_cursor_after_fetch w deployment_id deployment_logs []

/-- `start_cursor_fix` (lines 47-78): the `try` body's value, with the
`except Exception` clause (lines 75-78) converting any raised exception into
the return value `False`.  The return type `Bool` is total: no exception
escapes the function. -/
def start_cursor_fix (w : FixWorld) (deployment_id deployment_logs : Option Json) : Bool :=
  match (start_cursor_fix_run w deployment_id deployment_logs).1 with
  | Except.ok b => b
  | Except.error _ => false

/-- Modelled from the spec: one record of the Notification Store
(`{receivedAt, payload}`); the store itself belongs to the repository's
notification-only webhook variant, which is not among the source files
here. -/
structure NotificationRecord where
  receivedAt : String
  payload : Json

/-- Modelled from the spec: the Notification Store's capacity bound. -/
def MAX_NOTIFICATIONS : Nat := 50

/-- Modelled from the spec (section 4.2): `append(record)` inserts at the
end and, if the resulting length exceeds `MAX_NOTIFICATIONS`, removes
records from the front until the length is exactly `MAX_NOTIFICATIONS`
(FIFO eviction, oldest first). -/
def store_append (store : List NotificationRecord) (r : NotificationRecord) :
    List NotificationRecord :=
  let s := store ++ [r]
  if MAX_NOTIFICATIONS < s.length then s.drop (s.length - MAX_NOTIFICATIONS) else s

/-- The store obtained by appending a whole sequence of records, oldest
first, to an initially empty Notification Store. -/
def store_appendAll (rs : List NotificationRecord) : List NotificationRecord :=
  rs.foldl store_append []

/-- The `/webhook` handler with the specification's Notification Store
threaded through it.  The source handler contains no reference to any store
(no append, no eviction, no read), so the store passes through every path
unchanged; this wrapper makes that observable fact statable. -/
def railway_webhook_with_store (auth_token auth_header : Option String)
    (body : Option Json) (store : List NotificationRecord) :
    HandlerResult × List NotificationRecord :=
  (railway_webhook auth_token auth_header body, store)

/-- The `/manual-fix` handler with the specification's Notification Store
threaded through it; as with `/webhook`, the source handler never touches a
store. -/
def manual_fix_with_store (auth_token auth_header : Option String)
    (body : Option Json) (store : List NotificationRecord) :
    HandlerResult × List NotificationRecord :=
  (manual_fix auth_token auth_header body, store)

/-- A collaborator environment whose log fetch raises, for exercising the
exception-handling path of `start_cursor_fix`. -/
def fetchRaisesWorld : FixWorld where
  fetch_deployment_logs := fun _ => Except.error "boom"
  extract_errors_from_logs := fun _ => Except.ok (Json.arr [])
  create_prompt_file := fun _ _ _ => Except.ok (Json.str "prompt.md")
  launch_cursor_with_prompt := fun _ _ => Except.ok true
  repo_path := none

/-- A collaborator environment in which every call succeeds. -/
def okWorld : FixWorld where
  fetch_deployment_logs := fun _ => Except.ok (some (Json.str "fetched logs"))
  extract_errors_from_logs := fun _ => Except.ok (Json.arr [Json.str "err"])
  create_prompt_file := fun _ _ _ => Except.ok (Json.str "prompt.md")
  launch_cursor_with_prompt := fun _ _ => Except.ok true
  repo_path := some "/tmp/repo"

/-- A complete `deployment.failed` webhook payload, as documented in the
handler's docstring. -/
def failedDeployPayload : Json :=
  Json.obj [("event", Json.str "deployment.failed"),
    ("deployment", Json.obj [("id", Json.str "d1")]),
    ("service", Json.obj [("name", Json.str "s1")])]

/-- A `deployment.succeeded` webhook payload. -/
def succeededPayload : Json :=
  Json.obj [("event", Json.str "deployment.succeeded")]

/-- Appending one record to a store that is the last-50 suffix of a history
`l` yields the last-50 suffix of the history `l ++ [r]`. -/
theorem store_append_drop (l : List NotificationRecord) (r : NotificationRecord) :
    store_append (l.drop (l.length - MAX_NOTIFICATIONS)) r
      = (l ++ [r]).drop ((l ++ [r]).length - MAX_NOTIFICATIONS) := by
  simp only [store_append, MAX_NOTIFICATIONS, List.length_append, List.length_drop,
    List.length_singleton]
  rcases le_or_lt l.length 50 with h | h
  · have h0 : l.length - 50 = 0 := by omega
    rw [h0, List.drop_zero]
    simp only [Nat.sub_zero]
    rcases lt_or_ge l.length 50 with h1 | h1
    · have hc : ¬ (50 < l.length + 1) := by omega
      rw [if_neg hc]
      have hz : l.length + 1 - 50 = 0 := by omega
      rw [hz, List.drop_zero]
    · have h2 : l.length = 50 := by omega
      rw [h2]
      rw [if_pos (by omega : (50 : Nat) < 50 + 1)]
  · have h2 : l.length - (l.length - 50) = 50 := by omega
    rw [h2]
    rw [if_pos (by omega : (50 : Nat) < 50 + 1)]
    have e1 : (50 : Nat) + 1 - 50 = 1 := by omega
    have e2 : l.length + 1 - 50 = (l.length - 50) + 1 := by omega
    rw [e1, e2]
    rw [List.drop_append_eq_append_drop, List.drop_append_eq_append_drop]
    rw [List.drop_drop, List.length_drop, h2]
    have e3 : (1 : Nat) - 50 = 0 := by omega
    have e4 : (l.length - 50) + 1 - l.length = 0 := by omega
    rw [e3, e4]

/-- After appending any sequence of records to an empty store, the store
holds exactly the last `MAX_NOTIFICATIONS` records, in insertion order. -/
theorem store_appendAll_eq (rs : List NotificationRecord) :
    store_appendAll rs = rs.drop (rs.length - MAX_NOTIFICATIONS) := by
  induction rs using List.reverseRecOn with
  | nil => rfl
  | append_singleton l r ih =>
    rw [store_appendAll, List.foldl_append]
    rw [store_appendAll] at ih
    simp only [List.foldl_cons, List.foldl_nil]
    rw [ih, store_append_drop]

/-- The store's length after N appends is `min N MAX_NOTIFICATIONS`. -/
theorem store_appendAll_length (rs : List NotificationRecord) :
    (store_appendAll rs).length = min rs.length MAX_NOTIFICATIONS := by
  rw [store_appendAll_eq, List.length_drop]
  simp only [MAX_NOTIFICATIONS]
  omega

/-- C1: the Notification Store holds at most 50 records: after appending any
sequence of N records to an empty store, the contents are exactly the last
`min(N, 50)` inserted records in insertion order (FIFO eviction of the
oldest), and the length is `min(N, 50)`.  Applying the theorem to each
prefix of a sequence gives the "after each append" form; for N ≤ 50 the
drop is trivial and the contents are the full insertion-ordered sequence. -/
theorem notification_store_fifo_bound (rs : List NotificationRecord) :
    store_appendAll rs = rs.drop (rs.length - MAX_NOTIFICATIONS) ∧
    (store_appendAll rs).length = min rs.length MAX_NOTIFICATIONS :=
  ⟨store_appendAll_eq rs, store_appendAll_length rs⟩

/-- C2 (counterexample): a fully processed, authorized `deployment.failed`
webhook request — answered 200 `processing` — appends nothing to a
Notification Store threaded through the handler: the store stays empty
(length 0, not 1), refuting the claim that `handleWebhook` appends a
`{receivedAt, payload}` record before classification. -/
theorem railway_webhook_stores_nothing_cex :
    (railway_webhook none none (some failedDeployPayload)).response.status = 200 ∧
    List.lookup "status" (railway_webhook none none (some failedDeployPayload)).response.body
      = some (Json.str "processing") ∧
    (railway_webhook_with_store none none (some failedDeployPayload) []).2 = [] ∧
    (railway_webhook_with_store none none (some failedDeployPayload) []).2.length ≠ 1 :=
  ⟨rfl, rfl, rfl, by decide⟩

/-- C2 (amended): the source `/webhook` handler performs no store append for
any request whatsoever — the handler classifies and dispatches without
storing, and a Notification Store threaded through it is returned unchanged
on every path (the store-then-classify append exists only in the
specification's notification-only variant, which is not part of this
source). -/
theorem railway_webhook_store_unchanged (auth_token auth_header : Option String)
    (body : Option Json) (store : List NotificationRecord) :
    (railway_webhook_with_store auth_token auth_header body store).2 = store := rfl

/-- C3: every authorized `/webhook` request whose payload is a truthy JSON
object with `event == "deployment.failed"` (and whose `deployment` and
`service` fields, when present, are objects) is answered 200 with status
`processing` and message `"Cursor auto-fix started for deployment <id>"`,
and dispatches exactly one background `start_cursor_fix(deployment_id,
None)` invocation.  A missing `deployment.id` does not block processing:
the dispatch receives `none` and the message substitutes the placeholder
string `"None"` (Python's `str(None)`), as `pyStrOpt` shows. -/
theorem railway_webhook_failure_dispatch (auth_token auth_header : Option String)
    (kvs dkvs svkvs : List (String × Json))
    (hauth : authorized auth_token auth_header = true)
    (htruthy : Json.truthy (Json.obj kvs) = true)
    (hev : eventIsFailed (List.lookup "event" kvs) = true)
    (hdep : (List.lookup "deployment" kvs).getD (Json.obj []) = Json.obj dkvs)
    (hsvc : (List.lookup "service" kvs).getD (Json.obj []) = Json.obj svkvs) :
    (railway_webhook auth_token auth_header (some (Json.obj kvs))).response
      = ⟨200, [("status", Json.str "processing"),
          ("message", Json.str ("Cursor auto-fix started for deployment "
            ++ pyStrOpt (List.lookup "id" dkvs)))]⟩ ∧
    (railway_webhook auth_token auth_header (some (Json.obj kvs))).threads
      = [(List.lookup "id" dkvs, none)] := by
  simp only [railway_webhook, hauth, Bool.not_true, Bool.false_eq_true, if_false,
    pyTruthy, htruthy, Option.getD_some, Json.pyGet, hev, if_true]
  rw [hdep, hsvc]
  refine ⟨?_, ?_⟩ <;> trivial

/-- Witness for C3 at a payload with no `deployment` and no `service` field:
processing is not blocked, the dispatched argument is `none`, and the
message carries the `"None"` placeholder. -/
theorem railway_webhook_failure_dispatch_witness :
    authorized none none = true ∧
    Json.truthy (Json.obj [("event", Json.str "deployment.failed")]) = true ∧
    eventIsFailed (List.lookup "event" [("event", Json.str "deployment.failed")]) = true ∧
    (railway_webhook none none (some (Json.obj [("event", Json.str "deployment.failed")]))).response
      = ⟨200, [("status", Json.str "processing"),
          ("message", Json.str "Cursor auto-fix started for deployment None")]⟩ ∧
    (railway_webhook none none (some (Json.obj [("event", Json.str "deployment.failed")]))).threads
      = [(none, none)] :=
  ⟨rfl, rfl, rfl,
    (railway_webhook_failure_dispatch none none [("event", Json.str "deployment.failed")] [] []
      rfl rfl rfl rfl rfl).1,
    (railway_webhook_failure_dispatch none none [("event", Json.str "deployment.failed")] [] []
      rfl rfl rfl rfl rfl).2⟩

/-- A configured non-empty token with a header other than the exact
`Bearer <token>` string fails the auth guard. -/
theorem authorized_eq_false (t : String) (hdr : Option String) (ht : t ≠ "")
    (hh : hdr ≠ some ("Bearer " ++ t)) : authorized (some t) hdr = false := by
  have hne : t.isEmpty = false := by
    cases hie : t.isEmpty
    · rfl
    · exact absurd ((String.isEmpty_iff t).mp hie) ht
  simp only [authorized, pyTruthyStr, hne, Bool.not_false, if_true]
  cases hdr with
  | none => rfl
  | some h =>
    have hb : (h == "Bearer " ++ t) = false := by
      rw [beq_eq_false_iff_ne]
      intro hc
      exact hh (by rw [hc])
    simp only [Option.getD_some, hb, Bool.and_false]

/-- C4: when a non-empty secret is configured, every request to a protected
route (`/webhook` and `/manual-fix` are the protected routes of this source)
whose `Authorization` header is not exactly `"Bearer <secret>"` — including
a missing header — is answered 401 with body `{error: "Unauthorized"}`,
with no side effects: no thread is dispatched and a Notification Store
threaded through the handler is unchanged. -/
theorem unauthorized_rejected (t : String) (hdr : Option String) (body : Option Json)
    (store : List NotificationRecord) (ht : t ≠ "") (hh : hdr ≠ some ("Bearer " ++ t)) :
    railway_webhook (some t) hdr body = ⟨⟨401, [("error", Json.str "Unauthorized")]⟩, []⟩ ∧
    manual_fix (some t) hdr body = ⟨⟨401, [("error", Json.str "Unauthorized")]⟩, []⟩ ∧
    (railway_webhook_with_store (some t) hdr body store).2 = store ∧
    (manual_fix_with_store (some t) hdr body store).2 = store := by
  have hf := authorized_eq_false t hdr ht hh
  refine ⟨?_, ?_, rfl, rfl⟩ <;>
    simp only [railway_webhook, manual_fix, hf, Bool.not_false, if_true]

/-- Witness for C4: secret `"secret"`, missing header, valid failed-deploy
body — both handlers answer 401 and dispatch nothing. -/
theorem unauthorized_rejected_witness :
    ("secret" : String) ≠ "" ∧
    (none : Option String) ≠ some ("Bearer " ++ "secret") ∧
    railway_webhook (some "secret") none (some failedDeployPayload)
      = ⟨⟨401, [("error", Json.str "Unauthorized")]⟩, []⟩ ∧
    manual_fix (some "secret") none (some failedDeployPayload)
      = ⟨⟨401, [("error", Json.str "Unauthorized")]⟩, []⟩ :=
  ⟨by decide, by decide,
    (unauthorized_rejected "secret" none (some failedDeployPayload) [] (by decide) (by decide)).1,
    (unauthorized_rejected "secret" none (some failedDeployPayload) [] (by decide) (by decide)).2.1⟩

/-- C5 (counterexample): the authorized request `{"event":
"deployment.succeeded"}` is fully processed — 200 with status `ignored`, no
remediation dispatch — yet a Notification Store threaded through the
handler stays empty (length 0, not 1), refuting the claim's "stores the
record". -/
theorem railway_webhook_succeeded_cex :
    (railway_webhook none none (some succeededPayload)).response.status = 200 ∧
    List.lookup "status" (railway_webhook none none (some succeededPayload)).response.body
      = some (Json.str "ignored") ∧
    (railway_webhook none none (some succeededPayload)).threads = [] ∧
    (railway_webhook_with_store none none (some succeededPayload) []).2 = [] ∧
    (railway_webhook_with_store none none (some succeededPayload) []).2.length ≠ 1 :=
  ⟨rfl, rfl, rfl, rfl, by decide⟩

/-- C5 (amended): every authorized `/webhook` request whose payload is a
truthy JSON object with an event other than `deployment.failed` (an absent
event field included) performs no remediation dispatch and is answered 200
with status `ignored`; no record is stored — the source handler leaves a
Notification Store threaded through it unchanged. -/
theorem railway_webhook_nonfailure_ignored (auth_token auth_header : Option String)
    (kvs : List (String × Json)) (store : List NotificationRecord)
    (hauth : authorized auth_token auth_header = true)
    (htruthy : Json.truthy (Json.obj kvs) = true)
    (hev : eventIsFailed (List.lookup "event" kvs) = false) :
    (railway_webhook auth_token auth_header (some (Json.obj kvs))).response
      = ⟨200, [("status", Json.str "ignored"),
          ("message", Json.str "Event is not a deployment failure")]⟩ ∧
    (railway_webhook auth_token auth_header (some (Json.obj kvs))).threads = [] ∧
    (railway_webhook_with_store auth_token auth_header (some (Json.obj kvs)) store).2
      = store := by
  simp only [railway_webhook, hauth, Bool.not_true, Bool.false_eq_true, if_false,
    pyTruthy, htruthy, Option.getD_some, Json.pyGet, hev]
  refine ⟨?_, ?_, ?_⟩ <;> trivial

/-- Witness for C5 (amended) at `{"event": "deployment.succeeded"}`. -/
theorem railway_webhook_nonfailure_ignored_witness :
    authorized none none = true ∧
    eventIsFailed (List.lookup "event" [("event", Json.str "deployment.succeeded")]) = false ∧
    (railway_webhook none none
        (some (Json.obj [("event", Json.str "deployment.succeeded")]))).response
      = ⟨200, [("status", Json.str "ignored"),
          ("message", Json.str "Event is not a deployment failure")]⟩ ∧
    (railway_webhook none none
        (some (Json.obj [("event", Json.str "deployment.succeeded")]))).threads = [] :=
  ⟨rfl, rfl,
    (railway_webhook_nonfailure_ignored none none [("event", Json.str "deployment.succeeded")]
      [] rfl rfl rfl).1,
    (railway_webhook_nonfailure_ignored none none [("event", Json.str "deployment.succeeded")]
      [] rfl rfl rfl).2.1⟩

/-- The trace of the post-fetch stage extends its input trace. -/
theorem after_fetch_trace (w : FixWorld) (id logs : Option Json) (tr : List FixStep) :
    ∃ rest, (start_cursor_after_fetch w id logs tr).2 = tr ++ rest := by
  unfold start_cursor_after_fetch
  split
  · exact ⟨[], (List.append_nil tr).symm⟩
  · split
    · exact ⟨_, rfl⟩
    · split
      · exact ⟨_, rfl⟩
      · split
        · exact ⟨_, rfl⟩
        · exact ⟨_, rfl⟩

/-- The post-fetch stage never performs a log fetch: if its input trace is
fetch-free, so is its output trace. -/
theorem after_fetch_fetch_free (w : FixWorld) (id logs : Option Json) (tr : List FixStep)
    (h : ∀ j, FixStep.fetch j ∉ tr) (j : Json) :
    FixStep.fetch j ∉ (start_cursor_after_fetch w id logs tr).2 := by
  unfold start_cursor_after_fetch
  split
  · exact h j
  · split
    · simp only [List.mem_append, List.mem_singleton]
      rintro (hin | hin)
      · exact h j hin
      · simp at hin
    · split
      · simp only [List.mem_append, List.mem_cons, List.mem_singleton, List.not_mem_nil]
        rintro (hin | hin | hin)
        · exact h j hin
        · simp at hin
        · simp at hin
      · split <;>
        · simp only [List.mem_append, List.mem_cons, List.mem_singleton, List.not_mem_nil]
          rintro (hin | hin | hin | hin)
          · exact h j hin
          · simp at hin
          · simp at hin
          · simp at hin

/-- C6: `start_cursor_fix` calls the external log fetch exactly when the
given logs are falsy and a truthy deployment id is present; when logs are
provided (truthy), the fetch is bypassed and the first collaborator call is
the error extraction on exactly the given logs; when both arguments are
falsy the task returns `False` having attempted no collaborator call at
all; and when the fetch returns a falsy result the task returns `False`
with the fetch as its only attempted call — no later remediation step. -/
theorem start_cursor_fix_fetch_policy (w : FixWorld)
    (deployment_id deployment_logs : Option Json) :
    (∀ j, FixStep.fetch j ∈ (start_cursor_fix_run w deployment_id deployment_logs).2 →
        pyTruthy deployment_logs = false ∧ pyTruthy deployment_id = true) ∧
    (pyTruthy deployment_logs = false → pyTruthy deployment_id = true →
        FixStep.fetch (deployment_id.getD Json.null)
          ∈ (start_cursor_fix_run w deployment_id deployment_logs).2) ∧
    (pyTruthy deployment_logs = true →
        (start_cursor_fix_run w deployment_id deployment_logs).2.head?
          = some (FixStep.extract (deployment_logs.getD Json.null))) ∧
    (pyTruthy deployment_logs = false → pyTruthy deployment_id = false →
        start_cursor_fix_run w deployment_id deployment_logs = (Except.ok false, [])) ∧
    (∀ l, pyTruthy deployment_logs = false → pyTruthy deployment_id = true →
        w.fetch_deployment_logs (deployment_id.getD Json.null) = Except.ok l →
        pyTruthy l = false →
        start_cursor_fix_run w deployment_id deployment_logs
          = (Except.ok false, [FixStep.fetch (deployment_id.getD Json.null)])) := by
  refine ⟨?_, ?_, ?_, ?_, ?_⟩
  · intro j hmem
    by_cases hc : (!pyTruthy deployment_logs && pyTruthy deployment_id) = true
    · obtain ⟨h1, h2⟩ := Bool.and_eq_true .. |>.mp hc
      exact ⟨Bool.not_eq_true' .. |>.mp h1, h2⟩
    · exfalso
      unfold start_cursor_fix_run at hmem
      rw [if_neg hc] at hmem
      exact after_fetch_fetch_free w deployment_id deployment_logs []
        (fun _ => List.not_mem_nil _) j hmem
  · intro h1 h2
    unfold start_cursor_fix_run
    rw [if_pos (by rw [h1, h2]; rfl)]
    match w.fetch_deployment_logs (deployment_id.getD Json.null) with
    | Except.error e => exact List.mem_singleton.mpr rfl
    | Except.ok fetched =>
      obtain ⟨rest, hr⟩ := after_fetch_trace w deployment_id fetched
        [FixStep.fetch (deployment_id.getD Json.null)]
      rw [hr]
      exact List.mem_append_left _ (List.mem_singleton.mpr rfl)
  · intro h1
    unfold start_cursor_fix_run
    rw [if_neg (by rw [h1]; simp)]
    unfold start_cursor_after_fetch
    rw [if_neg (by rw [h1]; simp)]
    split
    · rfl
    · split
      · rfl
      · split <;> rfl
  · intro h1 h2
    unfold start_cursor_fix_run
    rw [if_neg (by rw [h1, h2]; simp)]
    unfold start_cursor_after_fetch
    rw [if_pos (by rw [h1]; rfl)]
  · intro l h1 h2 hf hl
    unfold start_cursor_fix_run
    rw [if_pos (by rw [h1, h2]; rfl)]
    rw [hf]
    simp only [start_cursor_after_fetch, hl, Bool.not_false, if_true]

/-- Witness for C6: with truthy logs given, the first (and bypassing) step
is error extraction on exactly those logs — no fetch. -/
theorem start_cursor_fix_fetch_policy_witness :
    pyTruthy (some (Json.str "error trace")) = true ∧
    (start_cursor_fix_run okWorld none (some (Json.str "error trace"))).2.head?
      = some (FixStep.extract (Json.str "error trace")) :=
  ⟨rfl, (start_cursor_fix_fetch_policy okWorld none (some (Json.str "error trace"))).2.2.1 rfl⟩

/-- C7: any exception raised at any step inside the remediation task is
caught by the `except Exception` clause and converted to the return value
`False`; `start_cursor_fix` is total with return type `Bool`, so no
exception propagates to its (nonexistent) caller. -/
theorem start_cursor_fix_catches (w : FixWorld) (deployment_id deployment_logs : Option Json)
    (e : String)
    (h : (start_cursor_fix_run w deployment_id deployment_logs).1 = Except.error e) :
    start_cursor_fix w deployment_id deployment_logs = false := by
  unfold start_cursor_fix
  rw [h]

/-- Witness for C7: a raising log fetch makes the task return `False`. -/
theorem start_cursor_fix_catches_witness :
    (start_cursor_fix_run fetchRaisesWorld (some (Json.str "d1")) none).1
      = Except.error "boom" ∧
    start_cursor_fix fetchRaisesWorld (some (Json.str "d1")) none = false :=
  ⟨rfl, start_cursor_fix_catches fetchRaisesWorld (some (Json.str "d1")) none "boom" rfl⟩

/-- C8: an authorized `/manual-fix` request whose truthy JSON-object body
has neither a truthy `deployment_id` nor truthy `logs` is answered 400 and
dispatches no remediation task; when at least one of the two is present
(with `deployment_id`, if present, a string, matching how the handler
builds its message), the handler answers 200 with status `processing` and
dispatches the task fire-and-forget — the response is produced without
running the dispatched task, hence before it completes. -/
theorem manual_fix_validation (auth_token auth_header : Option String)
    (kvs : List (String × Json))
    (hauth : authorized auth_token auth_header = true)
    (htruthy : Json.truthy (Json.obj kvs) = true)
    (hshape : List.lookup "deployment_id" kvs = none ∨
      ∃ s, List.lookup "deployment_id" kvs = some (Json.str s)) :
    (pyTruthy (List.lookup "deployment_id" kvs) = false →
      pyTruthy (List.lookup "logs" kvs) = false →
      manual_fix auth_token auth_header (some (Json.obj kvs))
        = ⟨⟨400, [("error", Json.str "Either deployment_id or logs must be provided")]⟩, []⟩) ∧
    ((pyTruthy (List.lookup "deployment_id" kvs) = true ∨
        pyTruthy (List.lookup "logs" kvs) = true) →
      (manual_fix auth_token auth_header (some (Json.obj kvs))).response.status = 200 ∧
      List.lookup "status"
          (manual_fix auth_token auth_header (some (Json.obj kvs))).response.body
        = some (Json.str "processing") ∧
      (manual_fix auth_token auth_header (some (Json.obj kvs))).threads
        = [(List.lookup "deployment_id" kvs, List.lookup "logs" kvs)]) := by
  have hbody : pyTruthy (some (Json.obj kvs)) = true := htruthy
  constructor
  · intro h1 h2
    simp only [manual_fix, hauth, Bool.not_true, Bool.false_eq_true, if_false, hbody,
      Option.getD_some, Json.pyGet, h1, h2, Bool.not_false, Bool.and_self, if_true]
  · intro hor
    have hcond : (!pyTruthy (List.lookup "deployment_id" kvs)
        && !pyTruthy (List.lookup "logs" kvs)) = false := by
      rcases hor with h | h <;> rw [h] <;> simp
    simp only [manual_fix, hauth, Bool.not_true, Bool.false_eq_true, if_false, hbody,
      Option.getD_some, Json.pyGet, hcond, if_true]
    rcases hshape with hs | ⟨s, hs⟩
    · rw [hs]
      simp only [pyTruthy, Bool.false_eq_true, if_false]
      exact ⟨trivial, rfl, trivial⟩
    · rw [hs]
      by_cases hts : pyTruthy (some (Json.str s)) = true
      · simp only [hts, if_true]
        exact ⟨trivial, rfl, trivial⟩
      · simp only [Bool.not_eq_true] at hts
        simp only [hts, Bool.false_eq_true, if_false]
        exact ⟨trivial, rfl, trivial⟩

/-- Witness for C8: `{"logs": "error trace..."}` is answered 200
`processing` and dispatches `(None, "error trace...")`. -/
theorem manual_fix_validation_witness :
    pyTruthy (List.lookup "logs" [("logs", Json.str "error trace...")]) = true ∧
    (manual_fix none none (some (Json.obj [("logs", Json.str "error trace...")]))).response.status
      = 200 ∧
    List.lookup "status"
        (manual_fix none none (some (Json.obj [("logs", Json.str "error trace...")]))).response.body
      = some (Json.str "processing") ∧
    (manual_fix none none (some (Json.obj [("logs", Json.str "error trace...")]))).threads
      = [(none, some (Json.str "error trace..."))] := by
  have h := (manual_fix_validation none none [("logs", Json.str "error trace...")]
    rfl rfl (Or.inl rfl)).2 (Or.inr rfl)
  exact ⟨rfl, h.1, h.2.1, h.2.2⟩

/-- C9: `GET /health` never fails closed: whatever the Railway reachability
probe does — raises, answers 200, or answers any other status — and whether
or not a Railway token is configured, the endpoint answers HTTP 200 with
`status: "healthy"` (a failed probe only changes the message). -/
theorem health_always_healthy (railway_token : Option String) (probe : Except String Nat)
    (now : String) :
    (health railway_token probe now).status = 200 ∧
    List.lookup "status" (health railway_token probe now).body = some (Json.str "healthy") := by
  unfold health
  split
  · cases probe with
    | error e => exact ⟨rfl, rfl⟩
    | ok code =>
      by_cases h : code = 200 <;> simp [h, List.lookup]
  · exact ⟨rfl, rfl⟩

/-- C10: a request to `/webhook` or `/manual-fix` whose body parses as JSON
but is a falsy value (the empty object included) is answered 400 with
`{error: "Invalid JSON payload"}` and nothing else happens — in particular
`/manual-fix` answers with this message and not the field-level
`"Either deployment_id or logs must be provided"`, because the guard tests
the truthiness of the parsed body, not whether parsing succeeded. -/
theorem falsy_body_rejected (auth_token auth_header : Option String) (j : Json)
    (hauth : authorized auth_token auth_header = true) (hf : j.truthy = false) :
    railway_webhook auth_token auth_header (some j)
      = ⟨⟨400, [("error", Json.str "Invalid JSON payload")]⟩, []⟩ ∧
    manual_fix auth_token auth_header (some j)
      = ⟨⟨400, [("error", Json.str "Invalid JSON payload")]⟩, []⟩ := by
  constructor <;>
    simp only [railway_webhook, manual_fix, hauth, Bool.not_true, Bool.false_eq_true,
      if_false, pyTruthy, hf, Bool.not_false, if_true]

/-- Witness for C10 at the falsy body `{}`. -/
theorem falsy_body_rejected_witness :
    authorized none none = true ∧
    Json.truthy (Json.obj []) = false ∧
    railway_webhook none none (some (Json.obj []))
      = ⟨⟨400, [("error", Json.str "Invalid JSON payload")]⟩, []⟩ ∧
    manual_fix none none (some (Json.obj []))
      = ⟨⟨400, [("error", Json.str "Invalid JSON payload")]⟩, []⟩ :=
  ⟨rfl, rfl, (falsy_body_rejected none none (Json.obj []) rfl rfl).1,
    (falsy_body_rejected none none (Json.obj []) rfl rfl).2⟩
